import Mathlib

/-!
Verification of the Graph Gateway core of `mcp-microsoft365`.

The development shallowly embeds the gateway core in Lean:
* JSON values are the inductive `Json`; the host primitive `JSON.parse` is
  treated as an oracle input (`Option Json`, `none` meaning a parse failure).
* Stateful code (the token cache) is explicit state passing.
* Network calls are oracle inputs describing the downstream response; the
  number of issuance requests performed is returned explicitly.
* JavaScript member access `x.f` on a non-object yields `undefined`, which we
  model as `Option.none`.  (For `x = null` JavaScript instead throws a
  TypeError; theorems about the error branches therefore exclude a top-level
  `null` body where that matters.)
-/

/-- JSON values, as produced by the host's `JSON.parse`. Numbers are modelled
as integers: every numeric value occurring in the verified claims is integral. -/
inductive Json where
  | null : Json
  | bool (b : Bool) : Json
  | num (n : Int) : Json
  | str (s : String) : Json
  | arr (elems : List Json) : Json
  | obj (fields : List (String × Json)) : Json

/-- Field access of `data.k`: `none` models JavaScript `undefined`. -/
def Json.getField : Json → String → Option Json
  | .obj fields, k => (fields.find? (fun kv => kv.1 = k)).map Prod.snd
  | _, _ => none

/-- JavaScript truthiness of a JSON value. -/
def Json.truthy : Json → Bool
  | .null => false
  | .bool b => b
  | .num n => n != 0
  | .str s => s != ""
  | .arr _ => true
  | .obj _ => true

/-- Truthiness of `data.k` (absent fields are `undefined`, hence falsy). -/
def Json.truthyField (j : Json) (k : String) : Bool :=
  match j.getField k with
  | some v => v.truthy
  | none => false

/-- Access `data.k` when the field holds a string, `none` otherwise. -/
def Json.strField (j : Json) (k : String) : Option String :=
  match j.getField k with
  | some (.str s) => some s
  | _ => none

/-- Access `data.k` when the field holds a number, `none` otherwise. -/
def Json.numField (j : Json) (k : String) : Option Int :=
  match j.getField k with
  | some (.num n) => some n
  | _ => none

/-- JavaScript `a || b` where `a` is a possibly-undefined value. -/
def jsOr (a : Option Json) (b : Json) : Json :=
  match a with
  | some v => if v.truthy then v else b
  | none => b

/-- String coercion as in a template literal `${v}` (arrays join their
elements with commas, objects display as `[object Object]`). -/
def jsDisplay : Json → String
  | .null => "null"
  | .bool true => "true"
  | .bool false => "false"
  | .num n => toString n
  | .str s => s
  | .arr elems => String.intercalate "," (elems.map (fun _ => "[object Object]"))
  | .obj _ => "[object Object]"

/-- Whether `pat` occurs as a contiguous sublist of `l`. -/
def hasInfix : List Char → List Char → Bool
  | [], pat => pat.isEmpty
  | a :: t, pat => pat.isPrefixOf (a :: t) || hasInfix t pat

/-- Substring test, used to state the "text contains ..." scenarios. -/
def strContains (s pat : String) : Bool :=
  hasInfix s.data pat.data

/-- JavaScript `s.substring(0, n)`: the first `n` characters of `s` (all of
`s` when it is shorter).  The strings involved are ASCII (base64, JSON), so
characters coincide with UTF-16 code units. -/
def jsSubstring (s : String) (n : Nat) : String :=
  ⟨s.data.take n⟩

/-! ## Error taxonomy (src/core/errors.ts) -/

/-- The `GraphApiError` class from `errors.ts`.  `code` is optional because the issuer's
error object may lack a `code` field (the class field is then `undefined`). -/
structure GraphApiError where
  message : String
  statusCode : Nat
  code : Option String
  requestId : Option String
deriving DecidableEq, Repr

/-- The `AuthError` class from `errors.ts`. -/
structure AuthError where
  message : String
deriving DecidableEq, Repr

/-- One entry of a `ZodError`'s issue list (the `zod` validation library). -/
structure ZodIssue where
  code : String
  message : String
  path : List String
deriving DecidableEq, Repr

/-- The failures that can reach the dispatch boundary in `index.ts`:
the three declared error classes, a `ZodError` thrown by `schema.parse`,
and a plain `Error` (e.g. the unknown-tool throw). -/
inductive AppError where
  | graphApi (e : GraphApiError) : AppError
  | auth (e : AuthError) : AppError
  | validation (message field : String) : AppError
  | zod (issues : List ZodIssue) : AppError
  | generic (message : String) : AppError
deriving DecidableEq, Repr

/-- Modelled from the zod library (external dependency): `ZodError.message`
is the JSON serialization of the issue list.  Whitespace and the exact key
set are simplified; the issue codes, messages and paths are rendered. -/
def zodMessage (issues : List ZodIssue) : String :=
  "[" ++ String.intercalate ", " (issues.map (fun i =>
    "\x7b \"code\": \"" ++ i.code ++ "\", \"message\": \"" ++ i.message ++
      "\", \"path\": [" ++
      String.intercalate ", " (i.path.map (fun p => "\"" ++ p ++ "\"")) ++
      "] \x7d")) ++ "]"

/-- The `formatError` function from `errors.ts`.  A `ZodError` and a plain `Error` are not
matched by the three `instanceof` branches and fall through to the final
`Error: ${message}` line.  An `undefined` `code` renders as the string
`undefined`, as a template literal does. -/
def formatError : AppError → String
  | .graphApi e =>
      "Graph API Error (" ++ toString e.statusCode ++ "): " ++ e.message ++
        " [" ++ e.code.getD "undefined" ++ "]"
  | .auth e => "Authentication Error: " ++ e.message
  | .validation message field =>
      "Validation Error: " ++ message ++ " (field: " ++ field ++ ")"
  | .zod issues => "Error: " ++ zodMessage issues
  | .generic message => "Error: " ++ message

/-! ## Request dispatcher (src/core/graph-client.ts): URL construction -/

def GRAPH_BASE_URL : String := "https://graph.microsoft.com/v1.0"
def GRAPH_BETA_URL : String := "https://graph.microsoft.com/beta"

/-- A query-parameter value: `string | number | boolean | undefined` from the
TypeScript type, plus `null`, which the runtime check also filters. -/
inductive JsParam where
  | str (s : String) : JsParam
  | num (n : Int) : JsParam
  | bool (b : Bool) : JsParam
  | undef : JsParam
  | null : JsParam
deriving DecidableEq, Repr

/-- The guard `value !== undefined && value !== null && value !== ''`. -/
def keepParam : JsParam → Bool
  | .undef => false
  | .null => false
  | .str s => s != ""
  | _ => true

/-- JavaScript `String(value)`. -/
def stringifyParam : JsParam → String
  | .str s => s
  | .num n => toString n
  | .bool true => "true"
  | .bool false => "false"
  | .undef => "undefined"
  | .null => "null"

def hexDigit (n : Nat) : Char :=
  if n < 10 then Char.ofNat (48 + n) else Char.ofNat (55 + n)

/-- UTF-8 bytes of a character. -/
def utf8Bytes (c : Char) : List Nat :=
  let n := c.toNat
  if n < 0x80 then [n]
  else if n < 0x800 then [0xC0 + n / 64, 0x80 + n % 64]
  else if n < 0x10000 then [0xE0 + n / 4096, 0x80 + n / 64 % 64, 0x80 + n % 64]
  else [0xF0 + n / 262144, 0x80 + n / 4096 % 64, 0x80 + n / 64 % 64, 0x80 + n % 64]

/-- The `application/x-www-form-urlencoded` serialization of one string, as
`URLSearchParams` performs: alphanumerics and `*-._` kept, space becomes `+`,
everything else percent-encoded byte-wise. -/
def encodeForm (s : String) : String :=
  ⟨(s.data.map (fun c =>
      if c.isAlphanum || c = '*' || c = '-' || c = '.' || c = '_' then [c]
      else if c = ' ' then ['+']
      else (utf8Bytes c).foldr (fun b acc =>
        '%' :: hexDigit (b / 16) :: hexDigit (b % 16) :: acc) [])).flatten⟩

/-- The `Object.entries(params).forEach(... searchParams.append ...)` loop:
keyed values surviving the guard are appended in mapping order, stringified. -/
def appendParams (q : List (String × String)) (ps : List (String × JsParam)) :
    List (String × String) :=
  ps.foldl (fun acc kv =>
    if keepParam kv.2 then acc ++ [(kv.1, stringifyParam kv.2)] else acc) q

/-- Rendering of `URL.toString()` on a URL with the given pre-query part and appended
search parameters. -/
def serializeQuery (qp : List (String × String)) : String :=
  if qp.isEmpty then ""
  else "?" ++ String.intercalate "&"
    (qp.map (fun kv => encodeForm kv.1 ++ "=" ++ encodeForm kv.2))

/-- JavaScript `s.startsWith(pre)`, modelled character-wise (the only prefix
used is the ASCII `"/"`, on which this coincides with the UTF-16 check). -/
def jsStartsWith (s pre : String) : Bool :=
  pre.data.isPrefixOf s.data

/-- The `buildUrl` function from `graph-client.ts`.  The WHATWG `URL` constructor is
modelled as the identity on the path: every call site passes a plain path
without `?`, `#` or dot segments, on which the constructor is the identity. -/
def buildUrl (endpoint : String) (params : Option (List (String × JsParam)))
    (useBeta : Bool) : String :=
  let normalizedEndpoint :=
    if jsStartsWith endpoint "/" then endpoint else "/" ++ endpoint
  let baseUrl := if useBeta then GRAPH_BETA_URL else GRAPH_BASE_URL
  let fullUrl := baseUrl ++ normalizedEndpoint
  let qp := match params with
    | some ps => appendParams [] ps
    | none => []
  fullUrl ++ serializeQuery qp

/-! ## Request dispatcher: response classification -/

/-- JavaScript `response.ok`: the status lies in the 2xx success range. -/
def statusOk (status : Nat) : Bool :=
  200 ≤ status && status ≤ 299

/-- The outcome of one dispatched request: a parsed payload, the synthetic
`success` marker returned for no-content responses, or a thrown
`GraphApiError`. -/
inductive GraphOutcome where
  | success (data : Json) : GraphOutcome
  | successEmpty : GraphOutcome
  | failure (e : GraphApiError) : GraphOutcome

/-- The issuer's error object, or the `\x7b code: 'UNKNOWN', message:
'Unknown error' \x7d` fallback when `data.error` is falsy. -/
def errorObjOf (data : Json) : Json :=
  jsOr (data.getField "error")
    (Json.obj [("code", .str "UNKNOWN"), ("message", .str "Unknown error")])

/-- Extraction of `error.innerError?.['request-id']`. -/
def requestIdOf (errorObj : Json) : Option String :=
  match errorObj.getField "innerError" with
  | some inner => inner.strField "request-id"
  | none => none

/-- The classification phase of `request` (graph-client.ts lines 77–112).
`text` is the response body; `parsed` is the host's `JSON.parse text`
(`none` on a parse failure).  A missing `message` field makes the `Error`
constructor leave `message` empty. -/
def classifyResponse (status : Nat) (text : String) (parsed : Option Json) :
    GraphOutcome :=
  if status = 204 || status = 202 then .successEmpty
  else if text = "" then .successEmpty
  else
    match parsed with
    | none =>
        .failure ⟨"Invalid JSON response: " ++ jsSubstring text 100,
          status, some "INVALID_JSON", none⟩
    | some data =>
        if !statusOk status || data.truthyField "error" then
          let errorObj := errorObjOf data
          .failure ⟨(errorObj.strField "message").getD "", status,
            errorObj.strField "code", requestIdOf errorObj⟩
        else .success data

/-! ## Token manager (src/core/auth.ts) -/

/-- The module-level token cache: `\x7b accessToken, expiresAt \x7d`, with
`expiresAt` an absolute instant in milliseconds (`Date.now()` scale). -/
structure TokenCache where
  accessToken : String
  expiresAt : Int
deriving DecidableEq, Repr

/-- The resolved response of one `fetch` to the token endpoint:
`response.ok` and the body after `response.json()`. -/
structure HttpJsonResponse where
  ok : Bool
  body : Json

/-- JavaScript `data.error_description || data.error || 'Unknown error'`. -/
def errorDescOf (data : Json) : Json :=
  jsOr (data.getField "error_description")
    (jsOr (data.getField "error") (.str "Unknown error"))

/-- The issuance branch of `getAccessToken`: one POST to the token endpoint,
whose resolved exchange is the oracle `resp`.  On `!response.ok || data.error`
an `AuthError` is raised and the cache is left as it was; otherwise the new
credential is stored with `expiresAt = now + expires_in * 1000`.  The success
path casts `access_token` and `expires_in` without checking, as the source's
`as` casts do. -/
def issueToken (tokenCache : Option TokenCache) (now : Int)
    (resp : HttpJsonResponse) :
    Except AuthError String × Option TokenCache × Nat :=
  let data := resp.body
  if !resp.ok || data.truthyField "error" then
    (Except.error ⟨"Token request failed: " ++ jsDisplay (errorDescOf data)⟩,
      tokenCache, 1)
  else
    let accessToken := (data.strField "access_token").getD ""
    let expiresIn := (data.numField "expires_in").getD 0
    (Except.ok accessToken,
      some ⟨accessToken, now + expiresIn * 1000⟩, 1)

/-- The `getAccessToken` function from `auth.ts`, with the cache passed explicitly and the
token-endpoint exchange given by the oracle `resp`.  Returns the result, the
cache after the call, and the number of issuance requests performed (0 or 1). -/
def getAccessToken (tokenCache : Option TokenCache) (now : Int)
    (resp : HttpJsonResponse) :
    Except AuthError String × Option TokenCache × Nat :=
  match tokenCache with
  | some tc =>
      if tc.expiresAt > now + 60000 then (Except.ok tc.accessToken, some tc, 0)
      else issueToken tokenCache now resp
  | none => issueToken tokenCache now resp

/-- The `clearTokenCache` function from `auth.ts`. -/
def clearTokenCache (_tokenCache : Option TokenCache) : Option TokenCache :=
  none

/-! ## Operation schemas (zod) and the mail-list handler (src/tools/mail.ts) -/

/-- Modelled from the zod library: the JavaScript type name reported in an
`invalid_type` issue. -/
def jsTypeName : Json → String
  | .null => "null"
  | .bool _ => "boolean"
  | .num _ => "number"
  | .str _ => "string"
  | .arr _ => "array"
  | .obj _ => "object"

/-- Modelled from the zod library: checking one `z.string().optional()`
field of an object schema.  Returns the issues for the field and the parsed
value. -/
def zodOptionalString (args : List (String × Json)) (key : String) :
    List ZodIssue × Option String :=
  match (Json.obj args).getField key with
  | none => ([], none)
  | some (.str s) => ([], some s)
  | some v =>
      ([⟨"invalid_type", "Expected string, received " ++ jsTypeName v, [key]⟩],
        none)

/-- Modelled from the zod library: checking one `z.string().default(d)`
field. -/
def zodStringDefault (args : List (String × Json)) (key : String)
    (d : String) : List ZodIssue × String :=
  match (Json.obj args).getField key with
  | none => ([], d)
  | some (.str s) => ([], s)
  | some v =>
      ([⟨"invalid_type", "Expected string, received " ++ jsTypeName v, [key]⟩],
        d)

/-- Modelled from the zod library: checking one
`z.number().min(lo).max(hi).default(d)` field. -/
def zodNumberRangeDefault (args : List (String × Json)) (key : String)
    (lo hi d : Int) : List ZodIssue × Int :=
  match (Json.obj args).getField key with
  | none => ([], d)
  | some (.num n) =>
      if n < lo then
        ([⟨"too_small",
           "Number must be greater than or equal to " ++ toString lo, [key]⟩],
          n)
      else if n > hi then
        ([⟨"too_big",
           "Number must be less than or equal to " ++ toString hi, [key]⟩],
          n)
      else ([], n)
  | some v =>
      ([⟨"invalid_type", "Expected number, received " ++ jsTypeName v, [key]⟩],
        d)

/-- The validated input of `mailListSchema`. -/
structure MailListInput where
  user : Option String
  folder : String
  top : Int
  filter : Option String
deriving DecidableEq, Repr

/-- Validation `mailListSchema.parse(args)`: fields are checked in declaration order
(`user`, `folder`, `top`, `filter`), all issues are collected, and a
`ZodError` with the full issue list is thrown when any field fails. -/
def validateMailList (args : List (String × Json)) :
    Except (List ZodIssue) MailListInput :=
  let u := zodOptionalString args "user"
  let fo := zodStringDefault args "folder" "inbox"
  let t := zodNumberRangeDefault args "top" 1 100 10
  let fi := zodOptionalString args "filter"
  let issues := u.1 ++ fo.1 ++ t.1 ++ fi.1
  if issues.isEmpty then .ok ⟨u.2, fo.2, t.2, fi.2⟩
  else .error issues

/-- The configuration consumed by the gateway core; `defaultUser` is the
optional `DEFAULT_USER` identity. -/
structure Config where
  defaultUser : Option String

/-- The `graphClient.getDefaultUser` method from `graph-client.ts`: `!config.defaultUser`
is JavaScript truthiness, so an empty configured string also fails. -/
def getDefaultUser (config : Config) : Except AppError String :=
  match config.defaultUser with
  | some u =>
      if u = "" then
        .error (.graphApi ⟨"No user specified and DEFAULT_USER not configured",
          400, some "NO_USER", none⟩)
      else .ok u
  | none =>
      .error (.graphApi ⟨"No user specified and DEFAULT_USER not configured",
        400, some "NO_USER", none⟩)

/-- JavaScript `input.user || graphClient.getDefaultUser()`: the argument value is used
when truthy (present and non-empty), otherwise the configured default is
consulted. -/
def resolveUser (inputUser : Option String) (config : Config) :
    Except AppError String :=
  match inputUser with
  | some u => if u = "" then getDefaultUser config else .ok u
  | none => getDefaultUser config

/-- The downstream exchange available to a handler: `graphClient.get`, as a
function of the endpoint and query parameters, returning the dispatcher's
classified payload or a thrown failure. -/
def GraphGet := String → List (String × JsParam) → Except AppError Json

/-- One mail-message summary produced by `mailList` (id, subject, sender
address, received instant, read flag, preview).  `from` falls back to
`'unknown'` and the preview is the first 200 characters. -/
def summarizeMessage (m : Json) : Json :=
  Json.obj
    [("id", (m.getField "id").getD .null),
     ("subject", (m.getField "subject").getD .null),
     ("from",
       match (m.getField "from").bind (fun f => f.getField "emailAddress")
           |>.bind (fun e => e.getField "address") with
       | some (.str a) => .str a
       | _ => .str "unknown"),
     ("received", (m.getField "receivedDateTime").getD .null),
     ("isRead", (m.getField "isRead").getD .null),
     ("preview",
       match m.getField "bodyPreview" with
       | some (.str s) => .str (jsSubstring s 200)
       | _ => .null)]

mutual

/-- A compact JSON rendering standing for `JSON.stringify(result, null, 2)`
(pretty-printing whitespace is not modelled; no verified claim depends on
it). -/
def stringifyJson : Json → String
  | .null => "null"
  | .bool true => "true"
  | .bool false => "false"
  | .num n => toString n
  | .str s => "\"" ++ s ++ "\""
  | .arr elems => "[" ++ String.intercalate ", " (stringifyJsonList elems) ++ "]"
  | .obj fields =>
      "\x7b" ++ String.intercalate ", " (stringifyJsonFields fields) ++ "\x7d"

def stringifyJsonList : List Json → List String
  | [] => []
  | j :: t => stringifyJson j :: stringifyJsonList t

def stringifyJsonFields : List (String × Json) → List String
  | [] => []
  | (k, v) :: t =>
      ("\"" ++ k ++ "\": " ++ stringifyJson v) :: stringifyJsonFields t

end

/-- The `mailList` handler from `mail.ts`: validate against
`mailListSchema`, resolve the user, issue the list request for
`/users/$\x7buser\x7d/mailFolders/$\x7bfolder\x7d/messages`, and reshape
`response.value` into summaries. -/
def mailList (config : Config) (graphGet : GraphGet)
    (args : List (String × Json)) : Except AppError String := do
  match validateMailList args with
  | .error issues => .error (.zod issues)
  | .ok input => do
      let user ← resolveUser input.user config
      let response ← graphGet
        ("/users/" ++ user ++ "/mailFolders/" ++ input.folder ++ "/messages")
        [("$top", .num input.top),
         ("$select",
           .str "id,subject,from,receivedDateTime,isRead,bodyPreview,importance,hasAttachments"),
         ("$orderby", .str "receivedDateTime desc"),
         ("$filter", match input.filter with
           | some f => .str f
           | none => .undef)]
      let values := match response.getField "value" with
        | some (.arr ms) => ms
        | _ => []
      .ok (stringifyJson (.arr (values.map summarizeMessage)))

/-! ## Attachment retrieval reshaping (src/tools/mail.ts, mailAttachmentGet) -/

/-- A fetched attachment as used by `mailAttachmentGet`; `contentBytes` is
the base64 content string when the API returned one. -/
structure Attachment where
  id : String
  name : String
  contentType : String
  size : Nat
  isInline : Bool
  contentBytes : Option String
deriving DecidableEq, Repr

/-- The record `mailAttachmentGet` serializes: `contentBytes` and
`truncated` are `none` when the corresponding property is never assigned
(JSON.stringify then omits them). -/
structure AttachmentResult where
  id : String
  name : String
  contentType : String
  size : Nat
  contentBytes : Option String
  truncated : Option Bool
deriving DecidableEq, Repr

/-- The reshaping step of `mailAttachmentGet` (mail.ts lines 613–629).  The
guard `if (attachment.contentBytes)` is JavaScript truthiness, so an empty
content string is skipped; a string longer than 1,400,000 characters is cut
to its first 1,400,000 characters and flagged `truncated: true`. -/
def mailAttachmentGetResult (attachment : Attachment) : AttachmentResult :=
  let base : AttachmentResult :=
    ⟨attachment.id, attachment.name, attachment.contentType, attachment.size,
      none, none⟩
  match attachment.contentBytes with
  | some cb =>
      if cb = "" then base
      else if cb.length > 1400000 then
        { base with contentBytes := some (jsSubstring cb 1400000),
                    truncated := some true }
      else { base with contentBytes := some cb }
  | none => base

/-! ## Tool registry and dispatch entry point (src/tools/index.ts, src/index.ts) -/

/-- A registered operation handler, as stored in `allHandlers`: it takes the
untyped argument bag and produces the textual result or throws. -/
def ToolHandler := List (String × Json) → Except AppError String

/-- The names registered by `allTools`/`allHandlers` in `tools/index.ts`, in
registration order: the mail, calendar, files, tasks, teams and users
contributions. -/
def allToolNames : List String :=
  ["m365_mail_list", "m365_mail_read", "m365_mail_send", "m365_mail_reply",
   "m365_mail_forward", "m365_mail_move", "m365_mail_flag",
   "m365_mail_mark_read", "m365_mail_folders", "m365_mail_create_draft",
   "m365_mail_search", "m365_mail_delete", "m365_mail_attachments_list",
   "m365_mail_attachment_get",
   "m365_calendar_list", "m365_calendar_get", "m365_calendar_create",
   "m365_calendar_update", "m365_calendar_respond", "m365_calendar_delete",
   "m365_calendar_availability", "m365_calendar_find_meeting_times",
   "m365_files_list", "m365_files_get", "m365_files_read",
   "m365_files_search", "m365_files_delete",
   "m365_tasks_lists", "m365_tasks_list", "m365_tasks_create",
   "m365_tasks_update", "m365_tasks_complete", "m365_tasks_delete",
   "m365_tasks_create_list",
   "m365_teams_chats", "m365_teams_messages", "m365_teams_send",
   "m365_teams_create_chat", "m365_teams_create_online_meeting",
   "m365_meetings_list", "m365_meeting_transcripts",
   "m365_meeting_transcript_content", "m365_call_records",
   "m365_meeting_by_join_url",
   "m365_users_list", "m365_users_get", "m365_users_search"]

/-- The own property names of `Object.prototype` in the host runtime.  A
property read on a plain object literal whose own keys all miss continues
through the prototype chain and finds these members instead of
`undefined`. -/
def objectPrototypeProps : List String :=
  ["constructor", "hasOwnProperty", "isPrototypeOf", "propertyIsEnumerable",
   "toLocaleString", "toString", "valueOf", "__proto__",
   "__defineGetter__", "__defineSetter__", "__lookupGetter__",
   "__lookupSetter__"]

/-- Modelled from the host runtime: the behavior of the `Object.prototype`
member leaking out of `allHandlers[toolName]` when it is then invoked as
`handler(args)` — a bare call in strict-mode module code, so the receiver is
`undefined`.  `toString` returns the string `[object Undefined]`;
`__proto__` is not callable, so the call throws `handler is not a function`;
`constructor` is the `Object` function, which returns the argument object
itself, summarized here by its display string; `toLocaleString` dereferences
its `undefined` receiver; the remaining members throw a `TypeError` coercing
the `undefined` receiver to an object.  All thrown `TypeError`s are plain
host errors, caught at the dispatch boundary and rendered by the final
`Error:` branch of `formatError`. -/
def objectPrototypeMember : String → ToolHandler
  | "toString" => fun _ => .ok "[object Undefined]"
  | "constructor" => fun _ => .ok "[object Object]"
  | "__proto__" => fun _ => .error (.generic "handler is not a function")
  | "toLocaleString" => fun _ =>
      .error (.generic
        "Cannot read properties of undefined (reading 'toString')")
  | _ => fun _ =>
      .error (.generic "Cannot convert undefined or null to object")

/-- The `getHandler` function from `tools/index.ts`: the property read
`allHandlers[toolName]` on the merged handler record.  An own key (a
registered operation name) shadows the prototype; a missing key falls back
to the `Object.prototype` members above (which are all truthy, so they pass
the caller's `if (!handler)` guard); only a name found in neither place
yields `undefined`. -/
def getHandler (handlers : List (String × ToolHandler)) (toolName : String) :
    Option ToolHandler :=
  match (handlers.find? (fun kv => kv.1 = toolName)).map Prod.snd with
  | some handler => some handler
  | none =>
      if toolName ∈ objectPrototypeProps then
        some (objectPrototypeMember toolName)
      else none

/-- The `CallToolRequest` handler from `index.ts` (lines 41–66): look the
name up, throw `Unknown tool: $\x7bname\x7d` when absent, run the handler,
and catch every failure at this single boundary, rendering it with
`formatError` and setting `isError`.  The returned pair is the caller-visible
text and the `isError` flag (so `success = false` iff the flag is `true`). -/
def callTool (handlers : List (String × ToolHandler)) (name : String)
    (args : List (String × Json)) : String × Bool :=
  match getHandler handlers name with
  | none => (formatError (.generic ("Unknown tool: " ++ name)), true)
  | some handler =>
      match handler args with
      | .ok result => (result, false)
      | .error e => (formatError e, true)

/-! ## Verification -/

theorem appendParams_eq (q : List (String × String))
    (ps : List (String × JsParam)) :
    appendParams q ps
      = q ++ (ps.filter (fun kv => keepParam kv.2)).map
          (fun kv => (kv.1, stringifyParam kv.2)) := by
  induction ps generalizing q with
  | nil => simp [appendParams]
  | cons kv t ih =>
    simp only [appendParams, List.foldl_cons] at *
    by_cases h : keepParam kv.2
    · rw [if_pos h, ih, List.filter_cons_of_pos (by simpa using h)]
      simp
    · rw [if_neg h, ih, List.filter_cons_of_neg (by simpa using h)]

theorem key_unique {α β : Type} (ps : List (α × β))
    (hnd : (ps.map Prod.fst).Nodup) {k : α} {v v' : β}
    (h1 : (k, v) ∈ ps) (h2 : (k, v') ∈ ps) : v = v' := by
  induction ps with
  | nil => cases h1
  | cons kv t ih =>
    simp only [List.map_cons, List.nodup_cons] at hnd
    rcases List.mem_cons.mp h1 with h1 | h1 <;>
      rcases List.mem_cons.mp h2 with h2 | h2
    · rw [← h1] at h2; exact (Prod.mk.injEq _ _ _ _ ▸ h2).2.symm
    · rw [← h1] at hnd
      exact absurd (List.mem_map.mpr ⟨(k, v'), h2, rfl⟩) hnd.1
    · rw [← h2] at hnd
      exact absurd (List.mem_map.mpr ⟨(k, v), h1, rfl⟩) hnd.1
    · exact ih hnd.2 h1 h2

/-- C2: the URL built by the dispatcher is the selected fixed base origin,
then the path normalized to begin with a leading `/` (added exactly when
missing), then the query string; a parameter is appended (URL-encoded, in
mapping order, stringified) iff its value is neither undefined, null, nor
the empty string; and the concrete list request with
`top = 10, filter = undefined` produces a URL containing `top=10` and no
`filter`. -/
theorem buildUrl_query_filtering
    (endpoint : String) (ps : List (String × JsParam)) (useBeta : Bool)
    (hnd : (ps.map Prod.fst).Nodup) :
    (buildUrl endpoint (some ps) useBeta
        = (if useBeta then GRAPH_BETA_URL else GRAPH_BASE_URL)
          ++ (if jsStartsWith endpoint "/" then endpoint else "/" ++ endpoint)
          ++ serializeQuery
              ((ps.filter (fun kv => keepParam kv.2)).map
                (fun kv => (kv.1, stringifyParam kv.2))))
    ∧ (if jsStartsWith endpoint "/" then endpoint
        else "/" ++ endpoint).data.head? = some '/'
    ∧ (∀ k v, (k, v) ∈ ps →
        (k ∈ (appendParams [] ps).map Prod.fst ↔ keepParam v = true))
    ∧ buildUrl "users/me/messages"
        (some [("top", .num 10), ("filter", .undef)]) false
        = "https://graph.microsoft.com/v1.0/users/me/messages?top=10"
    ∧ strContains (buildUrl "users/me/messages"
        (some [("top", .num 10), ("filter", .undef)]) false) "top=10" = true
    ∧ strContains (buildUrl "users/me/messages"
        (some [("top", .num 10), ("filter", .undef)]) false) "filter" = false := by
  refine ⟨?_, ?_, ?_, by decide, by decide, by decide⟩
  · simp [buildUrl, appendParams_eq]
  · by_cases h : jsStartsWith endpoint "/"
    · simp only [if_pos h]
      obtain ⟨t, ht⟩ := List.isPrefixOf_iff_prefix.mp h
      rw [show ("/" : String).data = ['/'] from rfl] at ht
      rw [← ht]; rfl
    · simp only [if_neg h, String.data_append]
      rfl
  · intro k v hmem
    rw [appendParams_eq]
    simp only [List.nil_append, List.map_map]
    constructor
    · intro hk
      obtain ⟨kv, hkvmem, hkv1⟩ := List.mem_map.mp hk
      obtain ⟨hkvps, hkeep⟩ := List.mem_filter.mp hkvmem
      have hkv1' : kv.1 = k := by simpa using hkv1
      have hkveq : (k, kv.2) ∈ ps := by
        rw [← hkv1', Prod.mk.eta]; exact hkvps
      rw [key_unique ps hnd hmem hkveq]
      simpa using hkeep
    · intro hkeep
      exact List.mem_map.mpr
        ⟨(k, v), List.mem_filter.mpr ⟨hmem, by simpa using hkeep⟩, rfl⟩

/-- Witness for C2 at the concrete list request of the claim. -/
theorem buildUrl_query_filtering_witness :
    (([("top", JsParam.num 10), ("filter", JsParam.undef)].map Prod.fst).Nodup)
    ∧ buildUrl "users/me/messages"
        (some [("top", JsParam.num 10), ("filter", JsParam.undef)]) false
        = "https://graph.microsoft.com/v1.0/users/me/messages?top=10" :=
  ⟨by decide,
    (buildUrl_query_filtering "users/me/messages"
      [("top", JsParam.num 10), ("filter", JsParam.undef)] false
      (by decide)).2.2.2.1⟩

theorem hasInfix_self (l : List Char) : hasInfix l l = true := by
  cases l with
  | nil => rfl
  | cons a t =>
    unfold hasInfix
    rw [Bool.or_eq_true]
    exact Or.inl ( List.isPrefixOf_iff_prefix.mpr (List.prefix_refl _))

theorem hasInfix_cons (a : Char) (l pat : List Char)
    (h : hasInfix l pat = true) : hasInfix (a :: l) pat = true := by
  unfold hasInfix
  rw [Bool.or_eq_true]
  exact Or.inr h

theorem hasInfix_append (pre l pat : List Char)
    (h : hasInfix l pat = true) : hasInfix (pre ++ l) pat = true := by
  induction pre with
  | nil => exact h
  | cons a t ih => exact hasInfix_cons a _ _ ih

theorem strContains_append_right (x y : String) :
    strContains (x ++ y) y = true := by
  unfold strContains
  rw [String.data_append]
  exact hasInfix_append _ _ _ (hasInfix_self _)

/-- C3: a 202 or 204 status, or an empty body on any status, yields the
synthetic success marker, whatever the parse oracle would say — so no JSON
parse can be attempted and a 204 with an empty body can never yield a parse
failure. -/
theorem classifyResponse_no_content (status : Nat) (text : String)
    (parsed : Option Json)
    (h : status = 202 ∨ status = 204 ∨ text = "") :
    classifyResponse status text parsed = .successEmpty := by
  unfold classifyResponse
  rcases h with h | h | h <;> simp [h]

/-- Witness for C3: a 204 with an empty body, with a parse oracle that would
have produced a payload. -/
theorem classifyResponse_no_content_witness :
    ((204 : Nat) = 202 ∨ (204 : Nat) = 204 ∨ ("" : String) = "")
    ∧ classifyResponse 204 "" (some (Json.str "junk"))
        = GraphOutcome.successEmpty :=
  ⟨Or.inr (Or.inl rfl),
    classifyResponse_no_content 204 "" (some (Json.str "junk"))
      (Or.inr (Or.inl rfl))⟩

/-- C6 counterexample: a 202 response with the non-empty unparsable body
`not json` is classified as the synthetic success marker, not as an
`INVALID_JSON` failure — the 202/204 short-circuit precedes the body read,
so "regardless of HTTP status" is false. -/
theorem classifyResponse_202_unparsable :
    classifyResponse 202 "not json" none = GraphOutcome.successEmpty := by
  rfl

/-- C6 (amended): for every response whose status is neither 202 nor 204 and
whose non-empty body fails to parse, the dispatcher fails with the
`INVALID_JSON` `GraphApiError` whose message carries the first 100
characters of the unparsable text. -/
theorem classifyResponse_invalid_json (status : Nat) (text : String)
    (h202 : status ≠ 202) (h204 : status ≠ 204) (hne : text ≠ "") :
    classifyResponse status text none
      = .failure ⟨"Invalid JSON response: " ++ jsSubstring text 100,
          status, some "INVALID_JSON", none⟩
    ∧ strContains ("Invalid JSON response: " ++ jsSubstring text 100)
        (jsSubstring text 100) = true := by
  constructor
  · unfold classifyResponse
    simp [h202, h204, hne]
  · exact strContains_append_right _ _

/-- Witness for C6 (amended) at a 200 response carrying `oops`. -/
theorem classifyResponse_invalid_json_witness :
    classifyResponse 200 "oops" none
      = .failure ⟨"Invalid JSON response: " ++ jsSubstring "oops" 100,
          200, some "INVALID_JSON", none⟩ :=
  (classifyResponse_invalid_json 200 "oops" (by decide) (by decide)
    (by decide)).1

/-- C4 counterexample: a 202 response whose non-empty body parses to an
error object is classified as the synthetic success marker, not as an
upstream failure — the 202/204 short-circuit precedes the body read. -/
theorem classifyResponse_202_error_body :
    classifyResponse 202
      "\x7b\"error\":\x7b\"code\":\"Forbidden\",\"message\":\"Access denied\"\x7d\x7d"
      (some (Json.obj [("error",
        Json.obj [("code", Json.str "Forbidden"),
                  ("message", Json.str "Access denied")])]))
      = GraphOutcome.successEmpty := by
  rfl

/-- C4 (amended): for every response whose status is neither 202 nor 204 and
whose non-empty body parses as JSON to a non-null value, if the body carries
a truthy error field or the status is outside the success range, the
dispatcher fails with a `GraphApiError` carrying the issuer's message, the
status, the issuer's code (`UNKNOWN` when no error object is present) and
the nested `request-id`; in the concrete 403 `Forbidden` scenario the
formatted caller-visible text contains `403`, `Access denied` and
`Forbidden`. -/
theorem classifyResponse_upstream_error (status : Nat) (text : String)
    (data : Json)
    (h202 : status ≠ 202) (h204 : status ≠ 204) (hne : text ≠ "")
    (_hnn : data ≠ Json.null)
    (herr : statusOk status = false ∨ data.truthyField "error" = true) :
    classifyResponse status text (some data)
      = .failure ⟨((errorObjOf data).strField "message").getD "", status,
          (errorObjOf data).strField "code", requestIdOf (errorObjOf data)⟩
    ∧ classifyResponse 403
        "\x7b\"error\":\x7b\"code\":\"Forbidden\",\"message\":\"Access denied\"\x7d\x7d"
        (some (Json.obj [("error",
          Json.obj [("code", Json.str "Forbidden"),
                    ("message", Json.str "Access denied")])]))
        = .failure ⟨"Access denied", 403, some "Forbidden", none⟩
    ∧ strContains (formatError (.graphApi
        ⟨"Access denied", 403, some "Forbidden", none⟩)) "403" = true
    ∧ strContains (formatError (.graphApi
        ⟨"Access denied", 403, some "Forbidden", none⟩)) "Access denied" = true
    ∧ strContains (formatError (.graphApi
        ⟨"Access denied", 403, some "Forbidden", none⟩)) "Forbidden" = true := by
  refine ⟨?_, by rfl, by decide, by decide, by decide⟩
  unfold classifyResponse
  rcases herr with herr | herr <;> simp [h202, h204, hne, herr]

/-- Witness for C4 (amended) at the claim's 403 `Forbidden` scenario. -/
theorem classifyResponse_upstream_error_witness :
    classifyResponse 403
      "\x7b\"error\":\x7b\"code\":\"Forbidden\",\"message\":\"Access denied\"\x7d\x7d"
      (some (Json.obj [("error",
        Json.obj [("code", Json.str "Forbidden"),
                  ("message", Json.str "Access denied")])]))
      = .failure ⟨"Access denied", 403, some "Forbidden", none⟩ :=
  (classifyResponse_upstream_error 403
    "\x7b\"error\":\x7b\"code\":\"Forbidden\",\"message\":\"Access denied\"\x7d\x7d"
    (Json.obj [("error",
      Json.obj [("code", Json.str "Forbidden"),
                ("message", Json.str "Access denied")])])
    (by decide) (by decide) (by decide) (by simp)
    (Or.inl (by decide))).2.1

theorem issueToken_count (tokenCache : Option TokenCache) (now : Int)
    (resp : HttpJsonResponse) :
    (issueToken tokenCache now resp).2.2 = 1 := by
  unfold issueToken
  by_cases h : (!resp.ok || resp.body.truthyField "error") = true <;> simp [h]

/-- C1: a cached credential whose expiry is more than 60 seconds after `now`
is returned with no issuance request and the cache untouched; otherwise
(stale or absent cache) exactly one issuance request is performed; and a
second call made while the cache left by the first call is still within the
safety margin adds no request, so two consecutive calls within the margin
make at most one request in total. -/
theorem getAccessToken_caching (tokenCache : Option TokenCache) (now : Int)
    (resp : HttpJsonResponse) :
    (∀ tc, tokenCache = some tc → tc.expiresAt > now + 60000 →
        getAccessToken tokenCache now resp
          = (Except.ok tc.accessToken, some tc, 0))
    ∧ ((∀ tc, tokenCache = some tc → tc.expiresAt ≤ now + 60000) →
        (getAccessToken tokenCache now resp).2.2 = 1)
    ∧ (∀ (t1 : Int) (resp1 : HttpJsonResponse) (tc1 : TokenCache),
        (getAccessToken tokenCache now resp).2.1 = some tc1 →
        tc1.expiresAt > t1 + 60000 →
        (getAccessToken tokenCache now resp).2.2
          + (getAccessToken (getAccessToken tokenCache now resp).2.1
              t1 resp1).2.2 ≤ 1) := by
  refine ⟨?_, ?_, ?_⟩
  · intro tc htc hfresh
    subst htc
    simp only [getAccessToken]
    rw [if_pos hfresh]
  · intro hstale
    cases htc : tokenCache with
    | none =>
      simp only [getAccessToken]
      exact issueToken_count _ _ _
    | some tc =>
      simp only [getAccessToken]
      rw [if_neg (fun h => absurd (hstale tc htc) (by omega))]
      exact issueToken_count _ _ _
  · intro t1 resp1 tc1 hcache hfresh
    have hsecond :
        (getAccessToken (getAccessToken tokenCache now resp).2.1
          t1 resp1).2.2 = 0 := by
      rw [hcache]
      simp only [getAccessToken]
      rw [if_pos hfresh]
    have hfirst : (getAccessToken tokenCache now resp).2.2 ≤ 1 := by
      cases htc : tokenCache with
      | none =>
        simp only [getAccessToken]
        exact Nat.le_of_eq (issueToken_count _ _ _)
      | some tc =>
        simp only [getAccessToken]
        by_cases h : tc.expiresAt > now + 60000
        · rw [if_pos h]
          exact Nat.zero_le 1
        · rw [if_neg h]
          exact Nat.le_of_eq (issueToken_count _ _ _)
    omega

/-- Witness for C1: a fresh cache at time 0 answers from the cache with no
request, and an empty cache performs exactly one request. -/
theorem getAccessToken_caching_witness :
    getAccessToken (some ⟨"tok", 100000⟩) 0 ⟨true, Json.obj []⟩
      = (Except.ok "tok", some ⟨"tok", 100000⟩, 0)
    ∧ (getAccessToken none 0 ⟨true, Json.obj []⟩).2.2 = 1 :=
  ⟨(getAccessToken_caching (some ⟨"tok", 100000⟩) 0 ⟨true, Json.obj []⟩).1
      ⟨"tok", 100000⟩ rfl (by decide),
    (getAccessToken_caching none 0 ⟨true, Json.obj []⟩).2.1
      (fun tc h => by cases h)⟩

/-- C5: when an issuance is attempted and the endpoint answers with a
non-success response or a body carrying an error indicator, the call fails
with an `AuthError` carrying the issuer's `error_description` (falling back
to the error indicator, then to `Unknown error`), and the cached credential
is exactly what it was before the attempt. -/
theorem getAccessToken_failure (tokenCache : Option TokenCache) (now : Int)
    (resp : HttpJsonResponse)
    (hstale : ∀ tc, tokenCache = some tc → tc.expiresAt ≤ now + 60000)
    (herr : resp.ok = false ∨ resp.body.truthyField "error" = true) :
    getAccessToken tokenCache now resp
      = (Except.error ⟨"Token request failed: "
            ++ jsDisplay (errorDescOf resp.body)⟩,
          tokenCache, 1) := by
  have hcond : (!resp.ok || resp.body.truthyField "error") = true := by
    rcases herr with h | h <;> simp [h]
  cases htc : tokenCache with
  | none =>
    simp only [getAccessToken, issueToken]
    rw [if_pos hcond]
  | some tc =>
    simp only [getAccessToken, issueToken]
    rw [if_neg (fun h => absurd (hstale tc htc) (by omega)), if_pos hcond]

/-- Witness for C5: a rejected issuance with an `error_description` leaves
an empty cache empty and surfaces the issuer's description. -/
theorem getAccessToken_failure_witness :
    getAccessToken none 0
      ⟨false, Json.obj [("error", Json.str "invalid_client"),
        ("error_description", Json.str "Bad secret")]⟩
      = (Except.error ⟨"Token request failed: Bad secret"⟩, none, 1) :=
  (getAccessToken_failure none 0
    ⟨false, Json.obj [("error", Json.str "invalid_client"),
      ("error_description", Json.str "Bad secret")]⟩
    (fun tc h => by cases h) (Or.inl rfl)).trans (by rfl)

/-- C9: a handler invoked without a truthy `user` argument substitutes the
configured default user into the downstream request path (observed through
an oracle reporting the endpoint it was asked for); with no configured
default (absent or empty), the invocation fails with the 400 `NO_USER`
`GraphApiError` and the outcome is independent of the downstream oracle, so
no downstream request is needed. -/
theorem mailList_default_user (config : Config) (graphGet : GraphGet)
    (args : List (String × Json)) (input : MailListInput)
    (hval : validateMailList args = .ok input)
    (huser : input.user = none) :
    (∀ u, config.defaultUser = some u → u ≠ "" →
        mailList config (fun endpoint _ => .error (.generic endpoint)) args
          = .error (.generic ("/users/" ++ u ++ "/mailFolders/"
              ++ input.folder ++ "/messages")))
    ∧ (config.defaultUser = none ∨ config.defaultUser = some "" →
        mailList config graphGet args
          = .error (.graphApi ⟨"No user specified and DEFAULT_USER not configured",
              400, some "NO_USER", none⟩)
        ∧ ∀ g2 : GraphGet, mailList config graphGet args
            = mailList config g2 args) := by
  constructor
  · intro u hdef hu
    simp only [mailList, hval, huser, resolveUser, getDefaultUser, hdef]
    rw [if_neg hu]
    rfl
  · intro hnone
    have hdefault : getDefaultUser config
        = .error (.graphApi ⟨"No user specified and DEFAULT_USER not configured",
            400, some "NO_USER", none⟩) := by
      rcases hnone with h | h <;> simp [getDefaultUser, h]
    constructor
    · simp only [mailList, hval, huser, resolveUser, hdefault]
      rfl
    · intro g2
      simp only [mailList, hval, huser, resolveUser, hdefault]
      rfl

/-- Witness for C9: concrete validated input with no `user` argument, one
configuration with a default user and one without. -/
theorem mailList_default_user_witness :
    validateMailList [] = .ok ⟨none, "inbox", 10, none⟩
    ∧ mailList ⟨some "boss@x.com"⟩
        (fun endpoint _ => .error (.generic endpoint)) []
        = .error (.generic "/users/boss@x.com/mailFolders/inbox/messages")
    ∧ mailList ⟨none⟩ (fun _ _ => .ok (Json.obj [])) []
        = .error (.graphApi ⟨"No user specified and DEFAULT_USER not configured",
            400, some "NO_USER", none⟩) :=
  ⟨by rfl,
    (mailList_default_user ⟨some "boss@x.com"⟩
      (fun _ _ => .ok (Json.obj [])) [] ⟨none, "inbox", 10, none⟩
      (by rfl) rfl).1 "boss@x.com" rfl (by decide),
    ((mailList_default_user ⟨none⟩ (fun _ _ => .ok (Json.obj [])) []
      ⟨none, "inbox", 10, none⟩ (by rfl) rfl).2 (Or.inl rfl)).1⟩

/-- C10 counterexample: an attachment whose `contentBytes` is present but
empty is not "returned whole" — the truthiness guard skips it, so the result
carries no `contentBytes` at all (instead of the empty string the claim
requires). -/
theorem mailAttachmentGet_empty_content :
    mailAttachmentGetResult ⟨"a1", "f.txt", "text/plain", 0, false, some ""⟩
      = ⟨"a1", "f.txt", "text/plain", 0, none, none⟩ := by
  rfl

/-- C10 (amended): for an attachment whose `contentBytes` is present and
non-empty, a string longer than 1,400,000 characters is returned cut to its
first 1,400,000 characters with `truncated = true`, and a string of at most
1,400,000 characters is returned whole with no `truncated` flag. -/
theorem mailAttachmentGet_truncation (attachment : Attachment) (cb : String)
    (hcb : attachment.contentBytes = some cb) (hne : cb ≠ "") :
    (cb.length > 1400000 →
      (mailAttachmentGetResult attachment).contentBytes
          = some (jsSubstring cb 1400000)
        ∧ (mailAttachmentGetResult attachment).truncated = some true)
    ∧ (cb.length ≤ 1400000 →
      (mailAttachmentGetResult attachment).contentBytes = some cb
        ∧ (mailAttachmentGetResult attachment).truncated = none) := by
  constructor
  · intro hlong
    simp only [mailAttachmentGetResult, hcb]
    rw [if_neg hne, if_pos hlong]
    exact ⟨rfl, rfl⟩
  · intro hshort
    simp only [mailAttachmentGetResult, hcb]
    rw [if_neg hne, if_neg (by omega)]
    exact ⟨rfl, rfl⟩

/-- Witness for C10 (amended): a 1,400,001-character content string is
truncated and flagged; a three-character one is returned whole. -/
theorem mailAttachmentGet_truncation_witness :
    (⟨List.replicate 1400001 'a'⟩ : String) ≠ ""
    ∧ (mailAttachmentGetResult ⟨"a1", "big.bin", "application/octet-stream",
        1400001, false, some ⟨List.replicate 1400001 'a'⟩⟩).truncated
        = some true
    ∧ (mailAttachmentGetResult ⟨"a2", "small.bin", "application/octet-stream",
        3, false, some "abc"⟩).contentBytes = some "abc" := by
  have hne : (⟨List.replicate 1400001 'a'⟩ : String) ≠ "" := by
    intro h
    have hlen := congrArg String.length h
    rw [show (⟨List.replicate 1400001 'a'⟩ : String).length
        = (List.replicate 1400001 'a').length from rfl,
      List.length_replicate] at hlen
    simp at hlen
  have hlong : (⟨List.replicate 1400001 'a'⟩ : String).length > 1400000 := by
    rw [show (⟨List.replicate 1400001 'a'⟩ : String).length
        = (List.replicate 1400001 'a').length from rfl,
      List.length_replicate]
    omega
  refine ⟨hne, ?_, ?_⟩
  · exact ((mailAttachmentGet_truncation
      ⟨"a1", "big.bin", "application/octet-stream", 1400001, false,
        some ⟨List.replicate 1400001 'a'⟩⟩
      ⟨List.replicate 1400001 'a'⟩ rfl hne).1 hlong).2
  · exact ((mailAttachmentGet_truncation
      ⟨"a2", "small.bin", "application/octet-stream", 3, false, some "abc"⟩
      "abc" rfl (by decide)).2 (by decide)).1

/-- C7: an argument bag whose `top` is a number below the declared minimum 1
makes `mailListSchema` validation fail with a `too_small` issue at path
`top`; invoking the registered `m365_mail_list` operation with `top = 0`
returns `success = false` with text naming the field `top`. -/
theorem mailList_validation_top (config : Config) (graphGet : GraphGet)
    (handlers : List (String × ToolHandler))
    (hreg : getHandler handlers "m365_mail_list"
      = some (mailList config graphGet)) :
    (∀ (args : List (String × Json)) (n : Int),
        (Json.obj args).getField "top" = some (Json.num n) → n < 1 →
        ∃ issues, validateMailList args = .error issues
          ∧ (⟨"too_small", "Number must be greater than or equal to 1",
              ["top"]⟩ : ZodIssue) ∈ issues)
    ∧ (callTool handlers "m365_mail_list" [("top", Json.num 0)]).2 = true
    ∧ strContains
        (callTool handlers "m365_mail_list" [("top", Json.num 0)]).1
        "top" = true := by
  refine ⟨?_, ?_, ?_⟩
  · intro args n htop hlt
    have htopcheck : zodNumberRangeDefault args "top" 1 100 10
        = ([⟨"too_small", "Number must be greater than or equal to 1",
            ["top"]⟩], n) := by
      simp only [zodNumberRangeDefault, htop]
      rw [if_pos hlt]
      rfl
    refine ⟨(zodOptionalString args "user").1
        ++ (zodStringDefault args "folder" "inbox").1
        ++ [⟨"too_small", "Number must be greater than or equal to 1",
            ["top"]⟩]
        ++ (zodOptionalString args "filter").1, ?_, by simp⟩
    simp only [validateMailList, htopcheck]
    rw [if_neg (by simp)]
  · simp only [callTool, hreg]
    rfl
  · simp only [callTool, hreg]
    rfl

/-- Witness for C7: the registry entry built from the modelled handler, and
the end-to-end `top = 0` invocation reporting a failure. -/
theorem mailList_validation_top_witness :
    getHandler
        [("m365_mail_list",
          mailList ⟨none⟩ (fun _ _ => .ok (Json.obj [])))] "m365_mail_list"
      = some (mailList ⟨none⟩ (fun _ _ => .ok (Json.obj [])))
    ∧ (callTool
        [("m365_mail_list",
          mailList ⟨none⟩ (fun _ _ => .ok (Json.obj [])))]
        "m365_mail_list" [("top", Json.num 0)]).2 = true :=
  ⟨rfl,
    (mailList_validation_top ⟨none⟩ (fun _ _ => .ok (Json.obj []))
      [("m365_mail_list",
        mailList ⟨none⟩ (fun _ _ => .ok (Json.obj [])))] rfl).2.1⟩

theorem getHandler_eq_none (handlers : List (String × ToolHandler))
    (name : String) (h : name ∉ handlers.map Prod.fst)
    (hp : name ∉ objectPrototypeProps) :
    getHandler handlers name = none := by
  have hfind : handlers.find? (fun kv => kv.1 = name) = none := by
    rw [List.find?_eq_none]
    intro kv hkv heq
    exact h (List.mem_map.mpr ⟨kv, hkv, by simpa using heq⟩)
  simp only [getHandler, hfind]
  rw [if_neg hp]
  rfl

/-- C8 counterexample: `toString` is not in the registry, yet invoking it
does not produce the Unknown-tool failure — the property read
`allHandlers["toString"]` finds `Object.prototype.toString` through the
prototype chain, the `if (!handler)` guard passes (the function is truthy),
and the bare strict-mode call returns the string `[object Undefined]` as a
successful, non-error result. -/
theorem callTool_toString_inherited :
    "toString" ∉ allToolNames
    ∧ callTool (allToolNames.map (fun n =>
        ((n, fun _ => Except.ok "") : String × ToolHandler)))
        "toString" [] = ("[object Undefined]", false) :=
  ⟨by decide, rfl⟩

/-- C8 (amended): with the registry carrying exactly the registered
operation names, invoking a name that is neither registered nor an own
property of `Object.prototype` fails at the boundary with `success = false`
and `Unknown tool: <name>`; the absent name `m365_bogus` concretely yields
text containing `Unknown tool: m365_bogus`; and any failure a resolved
handler raises is caught at this single boundary and rendered through
`formatError`. -/
theorem callTool_boundary (handlers : List (String × ToolHandler))
    (args : List (String × Json))
    (hnames : handlers.map Prod.fst = allToolNames) :
    (callTool handlers "m365_bogus" args
        = ("Error: Unknown tool: m365_bogus", true)
      ∧ strContains (callTool handlers "m365_bogus" args).1
          "Unknown tool: m365_bogus" = true)
    ∧ (∀ name, name ∉ allToolNames → name ∉ objectPrototypeProps →
        callTool handlers name args
          = (formatError (.generic ("Unknown tool: " ++ name)), true))
    ∧ (∀ (name : String) (handler : ToolHandler) (e : AppError),
        getHandler handlers name = some handler →
        handler args = .error e →
        callTool handlers name args = (formatError e, true)) := by
  have hbogus : getHandler handlers "m365_bogus" = none :=
    getHandler_eq_none handlers "m365_bogus" (by rw [hnames]; decide)
      (by decide)
  refine ⟨⟨?_, ?_⟩, ?_, ?_⟩
  · simp only [callTool, hbogus]
    rfl
  · simp only [callTool, hbogus]
    decide
  · intro name h1 h2
    have hnone : getHandler handlers name = none :=
      getHandler_eq_none handlers name (by rw [hnames]; exact h1) h2
    simp only [callTool, hnone]
  · intro name handler e hsome herr
    simp only [callTool, hsome, herr]

/-- Witness for C8: the registry of all registered names (with trivial
handlers, which the theorem quantifies over) rejects `m365_bogus`. -/
theorem callTool_boundary_witness :
    ((allToolNames.map (fun n =>
        ((n, fun _ => Except.ok "") : String × ToolHandler))).map Prod.fst
      = allToolNames)
    ∧ callTool
        (allToolNames.map (fun n =>
          ((n, fun _ => Except.ok "") : String × ToolHandler)))
        "m365_bogus" []
        = ("Error: Unknown tool: m365_bogus", true) := by
  have hmap : (allToolNames.map (fun n =>
      ((n, fun _ => Except.ok "") : String × ToolHandler))).map Prod.fst
      = allToolNames := by
    rfl
  exact ⟨hmap, (callTool_boundary _ [] hmap).1.1⟩
